import Mathlib

/-!
Verification of the vehicle valuation estimator `estimate_value` from `app.py`.

The estimator is a pure arithmetic heuristic.  Python's arithmetic on these
inputs (integers combined with true division by `10_000` and the literal
`0.80`) is embedded in `ℚ`; Python's `int()` truncation toward zero is the
function `pyInt` below.  Python's substring operator `needle in haystack` is
embedded as `strContains` over the strings' character lists.  The source reads
`current_year` from the system clock inside the function body
(`pd.to_datetime('today').year`); the embedding passes that clock reading as
the explicit argument `current_year`.
-/

set_option autoImplicit false

/-- Does the character list start with `needle`? -/
def listStartsWith : List Char → List Char → Bool
  | [], _ => true
  | _ :: _, [] => false
  | a :: as, b :: bs => a == b && listStartsWith as bs

/-- `containsSub needle hay` is Python's `needle in hay` on character lists:
case-sensitive contiguous substring containment. -/
def containsSub (needle : List Char) : List Char → Bool
  | [] => needle.isEmpty
  | c :: rest => listStartsWith needle (c :: rest) || containsSub needle rest

/-- Python's `needle in haystack` for strings. -/
def strContains (haystack needle : String) : Bool :=
  containsSub needle.data haystack.data

/-- Python's `int()` applied to a rational: truncation toward zero. -/
def pyInt (q : ℚ) : ℤ := if 0 ≤ q then ⌊q⌋ else ⌈q⌉

/-- The `market_adjustment` if/elif chain of `estimate_value`
(`app.py` lines 108-114). -/
def market_adjustment (marca modelo : String) : ℤ :=
  if strContains marca "Toyota" && strContains modelo "Corolla" then 1000000
  else if strContains marca "Hyundai" && strContains modelo "Elantra" then 500000
  else if strContains marca "Chevrolet" then -200000
  else 0

/-- The `version_adjustment` if/elif chain of `estimate_value`
(`app.py` lines 117-123). -/
def version_adjustment (version : String) : ℤ :=
  if strContains version "Full Equipo" then 800000
  else if strContains version "Sport" then 1200000
  else if strContains version "Limited" || strContains version "Luxury" then 1500000
  else 0

/-- `estimate_value` from `app.py` lines 86-136.  `ano` is the vehicle year,
`kilometraje` the mileage in km, `version` the trim; `current_year` is the
value the source obtains from the clock at line 94.  Returns the pair
`(market value, trade-in value)` after Python's `int()` truncation. -/
def estimate_value (marca modelo : String) (ano : ℤ) (kilometraje : ℕ)
    (version : String) (current_year : ℤ) : ℤ × ℤ :=
  let base_market_value : ℚ := 8000000
  let year_factor : ℤ := (current_year - ano) * 500000
  let year_factor : ℤ := if year_factor < 0 then 0 else year_factor
  let km_factor : ℚ := ((kilometraje : ℚ) / 10000) * 100000
  let estimated_market_value : ℚ :=
    base_market_value - (year_factor : ℚ) - km_factor
      + (market_adjustment marca modelo : ℚ) + (version_adjustment version : ℚ)
  let estimated_market_value : ℚ := max 1000000 estimated_market_value
  let estimated_trade_in_value : ℚ := estimated_market_value * (80 / 100) - 200000
  let estimated_trade_in_value : ℚ := max 500000 estimated_trade_in_value
  (pyInt estimated_market_value, pyInt estimated_trade_in_value)

/-- Closed integer form of the clamped year factor. -/
def year_factorZ (current_year ano : ℤ) : ℤ := max 0 ((current_year - ano) * 500000)

/-- Closed integer form of the market value computed by `estimate_value`. -/
def marketZ (marca modelo : String) (ano : ℤ) (kilometraje : ℕ)
    (version : String) (current_year : ℤ) : ℤ :=
  max 1000000 (8000000 - year_factorZ current_year ano - (kilometraje : ℤ) * 10
    + market_adjustment marca modelo + version_adjustment version)

/-- Modelled from the spec: `market_value` as the specification words it,
`max(1_000_000, 8_000_000 - max(0, (current_year - year) * 500_000)
- (mileage_km / 10_000) * 100_000 + brand_adjustment + trim_adjustment)`
with true division, truncated to an integer. -/
def spec_market_value (brand model : String) (year : ℤ) (mileage_km : ℕ)
    (trim : String) (current_year : ℤ) : ℤ :=
  pyInt (max 1000000 (8000000 - max 0 (((current_year - year) * 500000 : ℤ) : ℚ)
    - ((mileage_km : ℚ) / 10000) * 100000
    + (market_adjustment brand model : ℚ) + (version_adjustment trim : ℚ)))

/-- The trade-in value as a function of the returned market value alone:
`max(500_000, round_down(market_value * 0.80 - 200_000))`. -/
def tradeFromMarket (m : ℤ) : ℤ := max 500000 (pyInt ((m : ℚ) * (80 / 100) - 200000))

/-- Closed integer form of the trade-in value as a function of the integer
market value (integer division by 5 realizes the floor of `m * 0.80`). -/
def tradeZ (m : ℤ) : ℤ := max 500000 (m * 4 / 5 - 200000)

/- ### Helper lemmas -/

lemma pyInt_intCast (n : ℤ) : pyInt (n : ℚ) = n := by
  unfold pyInt
  split <;> simp

lemma pyInt_eq_floor {q : ℚ} (h : 0 ≤ q) : pyInt q = ⌊q⌋ := by
  unfold pyInt
  rw [if_pos h]

lemma ite_neg_eq_max (a : ℤ) : (if a < 0 then (0 : ℤ) else a) = max 0 a := by
  rcases lt_or_le a 0 with h | h
  · rw [if_pos h, max_eq_left h.le]
  · rw [if_neg (not_lt.mpr h), max_eq_right h]

lemma km_factor_eq (k : ℕ) : ((k : ℚ) / 10000) * 100000 = ((k : ℤ) * 10 : ℤ) := by
  push_cast
  rw [div_mul_eq_mul_div, div_eq_iff (by norm_num : (10000 : ℚ) ≠ 0)]
  ring

lemma floor_max_intCast (a : ℤ) (x : ℚ) : ⌊max (a : ℚ) x⌋ = max a ⌊x⌋ := by
  rcases le_total (a : ℚ) x with h | h
  · rw [max_eq_right h, max_eq_right (Int.le_floor.mpr h)]
  · have hfl : ⌊x⌋ ≤ a :=
      le_trans (Int.floor_le_floor h) (le_of_eq (Int.floor_intCast a))
    rw [max_eq_left h, max_eq_left hfl, Int.floor_intCast]

/-- The rational market value computed inside `estimate_value` equals the cast
of the closed integer form `marketZ`. -/
lemma market_q_eq (marca modelo : String) (ano : ℤ) (kilometraje : ℕ)
    (version : String) (current_year : ℤ) :
    max 1000000 ((8000000 : ℚ)
        - ((if (current_year - ano) * 500000 < 0 then 0
            else (current_year - ano) * 500000 : ℤ) : ℚ)
        - ((kilometraje : ℚ) / 10000) * 100000
        + (market_adjustment marca modelo : ℚ) + (version_adjustment version : ℚ))
      = ((marketZ marca modelo ano kilometraje version current_year : ℤ) : ℚ) := by
  rw [ite_neg_eq_max, km_factor_eq]
  unfold marketZ year_factorZ
  push_cast [Int.cast_max]
  congr 1

/-- First component of `estimate_value` is `marketZ`. -/
lemma estimate_fst (marca modelo : String) (ano : ℤ) (kilometraje : ℕ)
    (version : String) (current_year : ℤ) :
    (estimate_value marca modelo ano kilometraje version current_year).1
      = marketZ marca modelo ano kilometraje version current_year := by
  unfold estimate_value
  simp only
  rw [market_q_eq, pyInt_intCast]

/-- Second component of `estimate_value`, in closed form over the integer
market value. -/
lemma estimate_snd (marca modelo : String) (ano : ℤ) (kilometraje : ℕ)
    (version : String) (current_year : ℤ) :
    (estimate_value marca modelo ano kilometraje version current_year).2
      = max 500000
          ⌊((marketZ marca modelo ano kilometraje version current_year : ℤ) : ℚ)
            * (80 / 100) - 200000⌋ := by
  unfold estimate_value
  simp only
  rw [market_q_eq]
  have hnn : (0 : ℚ) ≤ max 500000
      (((marketZ marca modelo ano kilometraje version current_year : ℤ) : ℚ)
        * (80 / 100) - 200000) := le_trans (by norm_num) (le_max_left _ _)
  rw [pyInt_eq_floor hnn]
  have h500 : ((500000 : ℤ) : ℚ) = (500000 : ℚ) := by norm_num
  rw [← h500, floor_max_intCast]

lemma marketZ_ge (marca modelo : String) (ano : ℤ) (kilometraje : ℕ)
    (version : String) (current_year : ℤ) :
    1000000 ≤ marketZ marca modelo ano kilometraje version current_year :=
  le_max_left _ _

lemma trade_floor_eq (m : ℤ) :
    ⌊(m : ℚ) * (80 / 100) - 200000⌋ = m * 4 / 5 - 200000 := by
  have h : (m : ℚ) * (80 / 100) - 200000
      = ((m * 4 : ℤ) : ℚ) / ((5 : ℕ) : ℚ) - ((200000 : ℤ) : ℚ) := by
    push_cast
    ring
  rw [h, Int.floor_sub_int, Rat.floor_intCast_div_natCast]
  norm_num

/-- Second component of `estimate_value` as the fully computable `tradeZ` of
the computable `marketZ`. -/
lemma estimate_snd_z (marca modelo : String) (ano : ℤ) (kilometraje : ℕ)
    (version : String) (current_year : ℤ) :
    (estimate_value marca modelo ano kilometraje version current_year).2
      = tradeZ (marketZ marca modelo ano kilometraje version current_year) := by
  rw [estimate_snd, trade_floor_eq, tradeZ]

/-- `estimate_value` as a pair of closed integer forms. -/
lemma estimate_eq_pair (marca modelo : String) (ano : ℤ) (kilometraje : ℕ)
    (version : String) (current_year : ℤ) :
    estimate_value marca modelo ano kilometraje version current_year
      = (marketZ marca modelo ano kilometraje version current_year,
         tradeZ (marketZ marca modelo ano kilometraje version current_year)) :=
  Prod.ext (estimate_fst marca modelo ano kilometraje version current_year)
    (estimate_snd_z marca modelo ano kilometraje version current_year)

example : marketZ "Toyota" "Corolla" 2024 0 "Básico" 2024 = 9000000 := by decide
example : tradeZ 9000000 = 7000000 := by decide
example : marketZ "Chevrolet" "Aveo" 2014 150000 "Básico" 2024 = 1300000 := by decide
example : tradeZ 1300000 = 840000 := by decide
example : marketZ "Ford" "Focus" 2020 0 "Base" 2024 = 6000000 := by decide
example : marketZ "Ford" "Focus" 2024 0 "Base" 2024 = 8000000 := by decide
example : marketZ "Ford" "Focus" 2020 0 "Base" 2025 = 5500000 := by decide

/-- The spec-worded market value agrees with the closed integer form. -/
lemma spec_market_value_eq (marca modelo : String) (ano : ℤ) (kilometraje : ℕ)
    (version : String) (current_year : ℤ) :
    spec_market_value marca modelo ano kilometraje version current_year
      = marketZ marca modelo ano kilometraje version current_year := by
  unfold spec_market_value
  rw [km_factor_eq]
  have h : max (1000000 : ℚ) (8000000
        - max 0 (((current_year - ano) * 500000 : ℤ) : ℚ)
        - (((kilometraje : ℤ) * 10 : ℤ) : ℚ)
        + (market_adjustment marca modelo : ℚ) + (version_adjustment version : ℚ))
      = ((marketZ marca modelo ano kilometraje version current_year : ℤ) : ℚ) := by
    unfold marketZ year_factorZ
    push_cast [Int.cast_max]
    congr 1
  rw [h, pyInt_intCast]

/-- C1: for every input and current year, the returned market value is the
integer truncation of `max(1_000_000, 8_000_000 - max(0, (current_year - year)
* 500_000) - (mileage_km / 10_000) * 100_000 + brand_adjustment +
trim_adjustment)` with true division in the mileage penalty and the
adjustments given by the substring rule chains. -/
theorem C1_market_value_formula (marca modelo : String) (ano : ℤ)
    (kilometraje : ℕ) (version : String) (current_year : ℤ) :
    (estimate_value marca modelo ano kilometraje version current_year).1
      = spec_market_value marca modelo ano kilometraje version current_year :=
  (estimate_fst marca modelo ano kilometraje version current_year).trans
    (spec_market_value_eq marca modelo ano kilometraje version current_year).symm

/-- C2: the returned trade-in value equals
`max(500_000, round_down(market_value * 0.80 - 200_000))` applied to the
returned market value, hence is a function of the market value alone. -/
theorem C2_trade_in_from_market (marca modelo : String) (ano : ℤ)
    (kilometraje : ℕ) (version : String) (current_year : ℤ) :
    (estimate_value marca modelo ano kilometraje version current_year).2
      = tradeFromMarket
          (estimate_value marca modelo ano kilometraje version current_year).1 := by
  rw [estimate_fst, estimate_snd]
  unfold tradeFromMarket
  have hM : (1000000 : ℚ)
      ≤ ((marketZ marca modelo ano kilometraje version current_year : ℤ) : ℚ) := by
    exact_mod_cast marketZ_ge marca modelo ano kilometraje version current_year
  rw [pyInt_eq_floor (by linarith)]

/-- C5: the returned market value is at least 1,000,000 and the returned
trade-in value is at least 500,000. -/
theorem C5_floors (marca modelo : String) (ano : ℤ) (kilometraje : ℕ)
    (version : String) (current_year : ℤ) :
    1000000 ≤ (estimate_value marca modelo ano kilometraje version current_year).1
      ∧ 500000 ≤ (estimate_value marca modelo ano kilometraje version current_year).2 := by
  constructor
  · rw [estimate_fst]
    exact marketZ_ge marca modelo ano kilometraje version current_year
  · rw [estimate_snd]
    exact le_max_left _ _

/-- C6: the returned trade-in value never exceeds the returned market value. -/
theorem C6_trade_le_market (marca modelo : String) (ano : ℤ) (kilometraje : ℕ)
    (version : String) (current_year : ℤ) :
    (estimate_value marca modelo ano kilometraje version current_year).2
      ≤ (estimate_value marca modelo ano kilometraje version current_year).1 := by
  rw [estimate_fst, estimate_snd]
  have h1 : 1000000 ≤ marketZ marca modelo ano kilometraje version current_year :=
    marketZ_ge marca modelo ano kilometraje version current_year
  apply max_le
  · linarith
  · have hq : ((marketZ marca modelo ano kilometraje version current_year : ℤ) : ℚ)
        * (80 / 100) - 200000
        ≤ ((marketZ marca modelo ano kilometraje version current_year : ℤ) : ℚ) := by
      have hc : (1000000 : ℚ)
          ≤ ((marketZ marca modelo ano kilometraje version current_year : ℤ) : ℚ) := by
        exact_mod_cast h1
      linarith
    calc ⌊((marketZ marca modelo ano kilometraje version current_year : ℤ) : ℚ)
          * (80 / 100) - 200000⌋
        ≤ ⌊((marketZ marca modelo ano kilometraje version current_year : ℤ) : ℚ)⌋ :=
          Int.floor_le_floor hq
      _ = marketZ marca modelo ano kilometraje version current_year :=
          Int.floor_intCast _

/-- C9: holding everything else fixed, larger mileage never yields a larger
market value. -/
theorem C9_mileage_monotone (marca modelo : String) (ano : ℤ) (version : String)
    (current_year : ℤ) (km1 km2 : ℕ) (h : km1 ≤ km2) :
    (estimate_value marca modelo ano km2 version current_year).1
      ≤ (estimate_value marca modelo ano km1 version current_year).1 := by
  rw [estimate_fst, estimate_fst]
  unfold marketZ
  apply max_le_max le_rfl
  have hk : (km1 : ℤ) ≤ (km2 : ℤ) := by exact_mod_cast h
  linarith

/-- C9 witness at mileage 0 and 100,000 km. -/
theorem C9_mileage_monotone_witness :
    (0 : ℕ) ≤ 100000
      ∧ (estimate_value "Toyota" "Corolla" 2020 100000 "Sport" 2024).1
          ≤ (estimate_value "Toyota" "Corolla" 2020 0 "Sport" 2024).1 :=
  ⟨by decide,
    C9_mileage_monotone "Toyota" "Corolla" 2020 "Sport" 2024 0 100000 (by decide)⟩

/-- C10: the 500,000 floor on the trade-in value is never the selected branch:
the trade-in value always equals the truncation of `market_value * 0.80 -
200_000` and is therefore at least 600,000. -/
theorem C10_trade_floor_never_selected (marca modelo : String) (ano : ℤ)
    (kilometraje : ℕ) (version : String) (current_year : ℤ) :
    (estimate_value marca modelo ano kilometraje version current_year).2
      = pyInt (((estimate_value marca modelo ano kilometraje version current_year).1 : ℚ)
          * (80 / 100) - 200000)
      ∧ 600000 ≤ (estimate_value marca modelo ano kilometraje version current_year).2 := by
  rw [estimate_fst, estimate_snd]
  have h1 : 1000000 ≤ marketZ marca modelo ano kilometraje version current_year :=
    marketZ_ge marca modelo ano kilometraje version current_year
  have hc : (1000000 : ℚ)
      ≤ ((marketZ marca modelo ano kilometraje version current_year : ℤ) : ℚ) := by
    exact_mod_cast h1
  have hq : (600000 : ℚ)
      ≤ ((marketZ marca modelo ano kilometraje version current_year : ℤ) : ℚ)
        * (80 / 100) - 200000 := by linarith
  have hfl : (600000 : ℤ)
      ≤ ⌊((marketZ marca modelo ano kilometraje version current_year : ℤ) : ℚ)
          * (80 / 100) - 200000⌋ := by
    rw [Int.le_floor]
    exact_mod_cast hq
  constructor
  · rw [pyInt_eq_floor (le_trans (by norm_num) hq)]
    exact max_eq_right (le_trans (by norm_num) hfl)
  · exact le_trans hfl (le_max_right _ _)

/-- C3 counterexample: with everything else fixed, moving the vehicle year
from 2020 up to the current year 2024 strictly increases the market value, so
a later year does not give a smaller-or-equal market value. -/
theorem C3_counterexample :
    ¬ ((estimate_value "Ford" "Focus" 2024 0 "Base" 2024).1
        ≤ (estimate_value "Ford" "Focus" 2020 0 "Base" 2024).1) := by
  rw [estimate_fst, estimate_fst]
  decide

/-- C3 amended: holding brand, model, mileage, trim and current year fixed,
increasing the year toward the current year never DECREASES the market value:
for year1 ≤ year2 ≤ current_year the market value for year2 is at least the
market value for year1. -/
theorem C3_year_monotone (marca modelo : String) (version : String)
    (kilometraje : ℕ) (current_year y1 y2 : ℤ) (h12 : y1 ≤ y2)
    (h2c : y2 ≤ current_year) :
    (estimate_value marca modelo y1 kilometraje version current_year).1
      ≤ (estimate_value marca modelo y2 kilometraje version current_year).1 := by
  rw [estimate_fst, estimate_fst]
  unfold marketZ year_factorZ
  have hy : (current_year - y2) * 500000 ≤ (current_year - y1) * 500000 := by
    have : current_year - y2 ≤ current_year - y1 := by linarith
    linarith
  have hmax : max 0 ((current_year - y2) * 500000)
      ≤ max 0 ((current_year - y1) * 500000) := max_le_max le_rfl hy
  apply max_le_max le_rfl
  linarith

/-- C3 witness: years 2020 ≤ 2024 ≤ current year 2024. -/
theorem C3_year_monotone_witness :
    (2020 : ℤ) ≤ 2024 ∧ (2024 : ℤ) ≤ 2024
      ∧ (estimate_value "Ford" "Focus" 2020 0 "Base" 2024).1
          ≤ (estimate_value "Ford" "Focus" 2024 0 "Base" 2024).1 :=
  ⟨by decide, by decide,
    C3_year_monotone "Ford" "Focus" "Base" 0 2024 2020 2024 (by decide) (by decide)⟩

/-- C4 counterexample: the source derives `current_year` from the system clock
inside `estimate_value` (line 94), so two invocations with identical
(brand, model, year, mileage, trim) arguments but different clock years return
different results. -/
theorem C4_counterexample :
    estimate_value "Ford" "Focus" 2020 0 "Base" 2024
      ≠ estimate_value "Ford" "Focus" 2020 0 "Base" 2025 := by
  intro h
  have h1 := congrArg Prod.fst h
  rw [estimate_fst, estimate_fst] at h1
  exact absurd h1 (by decide)

/-- C4 amended: the estimator is a total pure function of the five arguments
TOGETHER WITH the clock year read at line 94: two invocations with identical
arguments and equal clock years return identical pairs, and every invocation
returns the well-defined pair of closed-form values (no failure path). -/
theorem C4_deterministic (marca modelo : String) (ano : ℤ) (kilometraje : ℕ)
    (version : String) (cy1 cy2 : ℤ) (h : cy1 = cy2) :
    estimate_value marca modelo ano kilometraje version cy1
        = estimate_value marca modelo ano kilometraje version cy2
      ∧ estimate_value marca modelo ano kilometraje version cy1
        = (marketZ marca modelo ano kilometraje version cy1,
           tradeZ (marketZ marca modelo ano kilometraje version cy1)) :=
  ⟨by rw [h], estimate_eq_pair marca modelo ano kilometraje version cy1⟩

/-- C4 witness at a concrete input with equal clock years. -/
theorem C4_deterministic_witness :
    (2024 : ℤ) = 2024
      ∧ (estimate_value "Toyota" "Corolla" 2020 10000 "Sport" 2024
          = estimate_value "Toyota" "Corolla" 2020 10000 "Sport" 2024
        ∧ estimate_value "Toyota" "Corolla" 2020 10000 "Sport" 2024
          = (marketZ "Toyota" "Corolla" 2020 10000 "Sport" 2024,
             tradeZ (marketZ "Toyota" "Corolla" 2020 10000 "Sport" 2024))) :=
  ⟨rfl, C4_deterministic "Toyota" "Corolla" 2020 10000 "Sport" 2024 2024 rfl⟩

/-- C7: the brand adjustment follows the if/elif chain in priority order —
Toyota+Corolla gives +1,000,000; otherwise Hyundai+Elantra gives +500,000;
otherwise a brand containing Chevrolet gives -200,000; otherwise 0 — and only
the first matching rule applies: an input matching both the Toyota/Corolla
rule and the Chevrolet rule gets +1,000,000. -/
theorem C7_brand_rule_priority (marca modelo : String) :
    ((strContains marca "Toyota" && strContains modelo "Corolla") = true →
        market_adjustment marca modelo = 1000000)
      ∧ ((strContains marca "Toyota" && strContains modelo "Corolla") = false →
          (strContains marca "Hyundai" && strContains modelo "Elantra") = true →
          market_adjustment marca modelo = 500000)
      ∧ ((strContains marca "Toyota" && strContains modelo "Corolla") = false →
          (strContains marca "Hyundai" && strContains modelo "Elantra") = false →
          strContains marca "Chevrolet" = true →
          market_adjustment marca modelo = -200000)
      ∧ ((strContains marca "Toyota" && strContains modelo "Corolla") = false →
          (strContains marca "Hyundai" && strContains modelo "Elantra") = false →
          strContains marca "Chevrolet" = false →
          market_adjustment marca modelo = 0)
      ∧ ((strContains marca "Toyota" && strContains modelo "Corolla") = true →
          strContains marca "Chevrolet" = true →
          market_adjustment marca modelo = 1000000) := by
  unfold market_adjustment
  refine ⟨?_, ?_, ?_, ?_, ?_⟩
  · intro h1
    simp [h1]
  · intro h1 h2
    simp [h1, h2]
  · intro h1 h2 h3
    simp [h1, h2, h3]
  · intro h1 h2 h3
    simp [h1, h2, h3]
  · intro h1 _
    simp [h1]

/-- C7 witness: a brand containing both "Toyota" and "Chevrolet" with model
"Corolla" receives the Toyota/Corolla adjustment. -/
theorem C7_brand_rule_priority_witness :
    (strContains "Toyota y Chevrolet" "Toyota"
        && strContains "Corolla" "Corolla") = true
      ∧ strContains "Toyota y Chevrolet" "Chevrolet" = true
      ∧ market_adjustment "Toyota y Chevrolet" "Corolla" = 1000000 :=
  ⟨by decide, by decide,
    (C7_brand_rule_priority "Toyota y Chevrolet" "Corolla").2.2.2.2
      (by decide) (by decide)⟩

/-- C8: the trim adjustment follows the if/elif chain in priority order —
"Full Equipo" gives +800,000; otherwise "Sport" gives +1,200,000; otherwise
"Limited" or "Luxury" gives +1,500,000; otherwise 0 — and only the first match
applies: a trim containing both "Full Equipo" and "Sport" gets +800,000. -/
theorem C8_trim_rule_priority (version : String) :
    (strContains version "Full Equipo" = true →
        version_adjustment version = 800000)
      ∧ (strContains version "Full Equipo" = false →
          strContains version "Sport" = true →
          version_adjustment version = 1200000)
      ∧ (strContains version "Full Equipo" = false →
          strContains version "Sport" = false →
          (strContains version "Limited" || strContains version "Luxury") = true →
          version_adjustment version = 1500000)
      ∧ (strContains version "Full Equipo" = false →
          strContains version "Sport" = false →
          (strContains version "Limited" || strContains version "Luxury") = false →
          version_adjustment version = 0)
      ∧ (strContains version "Full Equipo" = true →
          strContains version "Sport" = true →
          version_adjustment version = 800000) := by
  unfold version_adjustment
  refine ⟨?_, ?_, ?_, ?_, ?_⟩
  · intro h1
    simp [h1]
  · intro h1 h2
    simp [h1, h2]
  · intro h1 h2 h3
    simp [h1, h2, h3]
  · intro h1 h2 h3
    simp [h1, h2, h3]
  · intro h1 _
    simp [h1]

/-- C8 witness: a trim containing both "Full Equipo" and "Sport" receives the
"Full Equipo" adjustment. -/
theorem C8_trim_rule_priority_witness :
    strContains "Full Equipo Sport" "Full Equipo" = true
      ∧ strContains "Full Equipo Sport" "Sport" = true
      ∧ version_adjustment "Full Equipo Sport" = 800000 :=
  ⟨by decide, by decide,
    (C8_trim_rule_priority "Full Equipo Sport").2.2.2.2 (by decide) (by decide)⟩
